import Mathlib

/-
Verification development for the Oitilabs smartcap guided document-capture
front end.

Conventions of the shallow embedding:
* JavaScript numbers are modelled as exact rationals (`ℚ`).  All numeric
  literals of the source (`0.299`, `0.55`, ...) are written as the
  corresponding rationals.
* `Uint8Array` element assignment is modelled by `jsToUint8` (truncation
  toward zero followed by reduction modulo 2^8, the ECMAScript `ToUint8`
  conversion); an access of a missing `data` element yields `NaN` in the
  luminance expression and `ToUint8 NaN = 0`, which is modelled by the
  out-of-range branch of `grayAt`.
* The React component state of `CameraCapture` (the stability counter, the
  `isCapturing` flag, the candidate-frame buffer, the animation-frame handle
  and the pending collection-window timer) is collected in `ControllerState`;
  one invocation of `detectFrame`, one firing of the collection-window
  `setTimeout`, and the effect-cleanup cancellation are the three events of a
  capture session (`SessionEvent`), each an explicit state transformer.
* The pixel content of the video stream, the detector output and the data
  URLs produced by `canvas.toDataURL` are environmental inputs; they are
  carried by `FrameInput`.
-/

/-! ## Constants (src/constants.ts) -/

def TARGET_CLASSES : List String := ["book", "cell phone"]

def DETECTION_CONFIDENCE_THRESHOLD : ℚ := 1/10

def FRAME_AREA_THRESHOLD : ℚ := 55/100

def CENTER_THRESHOLD : ℚ := 15/100

def STABILITY_THRESHOLD : Nat := 4

def SHARPNESS_THRESHOLD : ℚ := 10

/-! ## Sharpness estimator (src/components/CameraCapture.tsx, lines 21-47) -/

/-- The `ImageData` object handed to `calculateSharpness`: a pixel rectangle
in RGBA order, four `data` entries per pixel. -/
structure ImageData where
  width : Nat
  height : Nat
  data : List ℚ
deriving DecidableEq

/-- ECMAScript `ToUint8`: truncate toward zero, then reduce modulo 2^8. -/
def jsToUint8 (q : ℚ) : ℤ :=
  Int.emod (if 0 ≤ q then ⌊q⌋ else ⌈q⌉) 256

/-- Entry `j` of the `gray` `Uint8Array` built by the first loop of
`calculateSharpness`: `gray[j] = data[4j]*0.299 + data[4j+1]*0.587 +
data[4j+2]*0.114`, stored through `ToUint8`.  When any of the three read
indices is out of range the JavaScript expression evaluates to `NaN` and the
stored byte is `0`; entries never written keep the `Uint8Array` default `0`. -/
def grayAt (imageData : ImageData) (j : Nat) : ℤ :=
  if 4 * j + 2 < imageData.data.length then
    jsToUint8 (imageData.data.getD (4 * j) 0 * (299/1000) +
      imageData.data.getD (4 * j + 1) 0 * (587/1000) +
      imageData.data.getD (4 * j + 2) 0 * (114/1000))
  else 0

/-- Function `calculateSharpness` (lines 21-47): mean of the squared discrete
Laplacian of the gray plane over all interior pixels, `0` when there is no
interior pixel.  The two nested `for` loops are rendered as folds over
`List.range' 1 n = [1, …, n]`, accumulating `(laplacianSum, pixelCount)`. -/
def calculateSharpness (imageData : ImageData) : ℚ :=
  let width := imageData.width
  let height := imageData.height
  let gray := fun j => grayAt imageData j
  let sc :=
    (List.range' 1 (height - 2)).foldl
      (fun acc y =>
        (List.range' 1 (width - 2)).foldl
          (fun acc2 x =>
            let center := gray (y * width + x)
            let top := gray ((y - 1) * width + x)
            let bottom := gray ((y + 1) * width + x)
            let left := gray (y * width + (x - 1))
            let right := gray (y * width + (x + 1))
            let laplacianValue := 4 * center - (top + bottom + left + right)
            (acc2.1 + laplacianValue * laplacianValue, acc2.2 + 1))
          acc)
      ((0 : ℤ), (0 : ℕ))
  if sc.2 = 0 then 0 else (sc.1 : ℚ) / (sc.2 : ℚ)

/-- The discrete Laplacian of a gray plane `g` (indexed row-major with row
stride `w`) at interior pixel `(x, y)`. -/
def laplacian (g : Nat → ℤ) (w : Nat) (x y : Nat) : ℤ :=
  4 * g (y * w + x) -
    (g ((y - 1) * w + x) + g ((y + 1) * w + x) + g (y * w + (x - 1)) + g (y * w + (x + 1)))

/-- Sum of squared Laplacian values over all interior pixels
`1 ≤ x ≤ w-2`, `1 ≤ y ≤ h-2`. -/
def interiorLaplacianSqSum (g : Nat → ℤ) (w h : Nat) : ℤ :=
  ∑ y ∈ Finset.Ico 1 (h - 1), ∑ x ∈ Finset.Ico 1 (w - 1),
    laplacian g w x y * laplacian g w x y

/-- Modelled from the spec wording of claim C2: the sharpness formula with
the *exact* (untruncated) luminance `L = 0.299·R + 0.587·G + 0.114·B`.  Used
only to compare the claim's wording with the source's `calculateSharpness`,
which truncates the luminance into a `Uint8Array`. -/
def sharpnessSpecRealLuminance (imageData : ImageData) : ℚ :=
  let w := imageData.width
  let h := imageData.height
  let lum := fun j =>
    imageData.data.getD (4 * j) 0 * (299/1000) +
      imageData.data.getD (4 * j + 1) 0 * (587/1000) +
      imageData.data.getD (4 * j + 2) 0 * (114/1000)
  if w < 3 ∨ h < 3 then 0
  else
    (∑ y ∈ Finset.Ico 1 (h - 1), ∑ x ∈ Finset.Ico 1 (w - 1),
        (4 * lum (y * w + x) -
          (lum ((y - 1) * w + x) + lum ((y + 1) * w + x) +
            lum (y * w + (x - 1)) + lum (y * w + (x + 1)))) ^ 2) /
      (((w - 2) * (h - 2) : ℕ) : ℚ)

/-! ## Detections and the frame evaluator (src/components/CameraCapture.tsx, lines 75-141) -/

/-- An axis-aligned bounding box `[x, y, width, height]` in source-frame
pixel coordinates (the coco-ssd `bbox` tuple). -/
structure Bbox where
  x : ℚ
  y : ℚ
  width : ℚ
  height : ℚ
deriving DecidableEq

/-- One detector output (`DetectedObject` in src/types.ts).  The source field
`class` is a reserved word in Lean and is rendered `cls`. -/
structure Detection where
  cls : String
  score : ℚ
  bbox : Bbox
deriving DecidableEq

/-- The predicate of the `find` call on line 76 (and, identically, line 362):
`TARGET_CLASSES.includes(p.class) && p.score > DETECTION_CONFIDENCE_THRESHOLD`. -/
def qualifies (p : Detection) : Bool :=
  TARGET_CLASSES.contains p.cls && decide (p.score > DETECTION_CONFIDENCE_THRESHOLD)

/-- Selection `predictions.find(...)` of the realtime path (line 76): the first
detection in list order whose class is targeted and whose score exceeds the
confidence threshold. -/
def findValidPrediction (predictions : List Detection) : Option Detection :=
  predictions.find? qualifies

/-- Selection `predictions.find(...)` of the static upload path
(src/unnamed/part_001, line 362); textually the same expression. -/
def findValidPredictionUpload (predictions : List Detection) : Option Detection :=
  predictions.find? qualifies

/-- Centering check of the realtime path (lines 102-106). -/
def rtIsCentered (bbox : Bbox) (videoWidth videoHeight : ℚ) : Bool :=
  decide (|bbox.x + bbox.width / 2 - videoWidth / 2| < videoWidth * CENTER_THRESHOLD) &&
    decide (|bbox.y + bbox.height / 2 - videoHeight / 2| < videoHeight * CENTER_THRESHOLD)

/-- Size check of the realtime path (lines 107-109). -/
def rtIsLargeEnough (bbox : Bbox) (videoWidth videoHeight : ℚ) : Bool :=
  decide (bbox.width * bbox.height / (videoWidth * videoHeight) > FRAME_AREA_THRESHOLD)

/-- Centering check of the static upload path (src/unnamed/part_001,
lines 372-379). -/
def stIsCentered (bbox : Bbox) (imageWidth imageHeight : ℚ) : Bool :=
  decide (|bbox.x + bbox.width / 2 - imageWidth / 2| < imageWidth * CENTER_THRESHOLD) &&
    decide (|bbox.y + bbox.height / 2 - imageHeight / 2| < imageHeight * CENTER_THRESHOLD)

/-- Size check of the static upload path (src/unnamed/part_001,
lines 381-383). -/
def stIsLargeEnough (bbox : Bbox) (imageWidth imageHeight : ℚ) : Bool :=
  decide (bbox.width * bbox.height / (imageWidth * imageHeight) > FRAME_AREA_THRESHOLD)

/-- The structured verdict of one realtime frame evaluation, in the spec's
vocabulary.  `Searching` is the no-qualifying-detection case (line 140),
`NoContext` the `getContext` failure (line 137), and `Accepted` carries the
selected bbox and the computed sharpness. -/
inductive Verdict where
  | Searching
  | NoContext
  | Blurred
  | TooFar
  | Uncentered
  | Accepted (bbox : Bbox) (sharpness : ℚ)
deriving DecidableEq

/-- The feedback text the realtime loop assigns in each verdict branch
(lines 97-141). -/
def feedbackOf : Verdict → String
  | .Searching => "Certifique-se de que o documento esteja bem iluminado e totalmente visível."
  | .NoContext => "Não foi possível analisar a nitidez."
  | .Blurred => "Imagem embaçada. Firme a câmera."
  | .TooFar => "Aproxime-se do documento."
  | .Uncentered => "Centralize o documento na moldura."
  | .Accepted _ _ => "Mantenha firme..."

/-- Frame evaluation of `detectFrame` (lines 75-141): select the first
qualifying detection, then check sharpness, then size, then centering.
`cropData` is the `ImageData` of the bbox-sized crop of the current video
frame (`none` when `getContext` fails, line 92). -/
def evaluateFrame (predictions : List Detection) (videoWidth videoHeight : ℚ)
    (cropData : Option ImageData) : Verdict :=
  match findValidPrediction predictions with
  | none => .Searching
  | some p =>
    match cropData with
    | none => .NoContext
    | some imageData =>
      let sharpness := calculateSharpness imageData
      if sharpness < SHARPNESS_THRESHOLD then .Blurred
      else if !rtIsLargeEnough p.bbox videoWidth videoHeight then .TooFar
      else if !rtIsCentered p.bbox videoWidth videoHeight then .Uncentered
      else .Accepted p.bbox sharpness

/-! ## Capture controller (src/components/CameraCapture.tsx, lines 49-233) -/

/-- A buffered candidate (the element type of `collectedFramesRef`,
line 54). -/
structure CandidateFrame where
  imageDataUrl : String
  bbox : Bbox
  sharpness : ℚ
deriving DecidableEq

/-- Structure `CapturedImage` of src/types.ts: what `onCapture` emits. -/
structure CapturedImage where
  imageDataUrl : String
  bbox : Bbox
deriving DecidableEq

/-- Reduction `frames.reduce((best, current) => current.sharpness > best.sharpness ?
current : best)` (lines 161-163).  JavaScript `reduce` without an initial
value starts from the head; it throws on an empty array, which the source
rules out with the `frames.length > 0` guard (line 160), modelled here by
returning `none`. -/
def bestFrame : List CandidateFrame → Option CandidateFrame
  | [] => none
  | f :: rest =>
    some (rest.foldl (fun best current =>
      if current.sharpness > best.sharpness then current else best) f)

/-- The mutable state of one realtime capture session: the refs and React
state of `CameraCapture` that the acquisition loop touches.
`animationFrameId = some ()` models a live scheduling handle,
`timeoutScheduled` a collection-window `setTimeout` that has been scheduled
(line 153) and has not fired yet.  The source never stores the timeout id
and never clears it. -/
structure ControllerState where
  stabilityCounter : Nat
  isCapturing : Bool
  collectedFrames : List CandidateFrame
  animationFrameId : Option Unit
  timeoutScheduled : Bool
deriving DecidableEq

/-- The externally visible effects of one event: the feedback text written
by `setFeedback`, the image emitted through `onCapture`, and whether a new
acquisition tick was scheduled by `requestAnimationFrame`. -/
structure StepOutput where
  feedback : Option String
  emitted : Option CapturedImage
  rescheduled : Bool
deriving DecidableEq

def noOutput : StepOutput := ⟨none, none, false⟩

/-- The environmental input of one `detectFrame` invocation: the readiness
test of line 66, the detector result of line 75, the video's natural
dimensions, the pixel content of the bbox crop (line 94), and the data URL
`canvas.toDataURL` produces for the full-frame snapshot (line 126). -/
structure FrameInput where
  ready : Bool
  predictions : List Detection
  videoWidth : ℚ
  videoHeight : ℚ
  cropData : Option ImageData
  snapshotUrl : String
deriving DecidableEq

/-- One invocation of `detectFrame` (lines 65-181).  When the source is not
ready (line 66) the tick only re-schedules itself.  Otherwise the frame is
evaluated; while `isCapturing` an `Accepted` frame is appended to the
candidate buffer (lines 120-133); while not capturing the feedback is
published and the stability counter is updated (lines 143-176), entering
the capturing state and scheduling the collection-window timer when the
counter reaches the threshold (lines 149-153).  The final lines 178-180
re-schedule the next tick only if the scheduling handle is still live. -/
def detectFrameStep (s : ControllerState) (input : FrameInput) : ControllerState × StepOutput :=
  if input.ready = false then
    (s, { feedback := none, emitted := none, rescheduled := s.animationFrameId.isSome })
  else
    let verdict := evaluateFrame input.predictions input.videoWidth input.videoHeight input.cropData
    let s1 : ControllerState :=
      match verdict with
      | .Accepted bbox sharpness =>
        if s.isCapturing then
          { s with collectedFrames :=
              s.collectedFrames ++ [⟨input.snapshotUrl, bbox, sharpness⟩] }
        else s
      | _ => s
    if s1.isCapturing then
      (s1, { feedback := none, emitted := none, rescheduled := s1.animationFrameId.isSome })
    else
      match verdict with
      | .Accepted _ _ =>
        let counter := s1.stabilityCounter + 1
        if STABILITY_THRESHOLD ≤ counter then
          ({ s1 with stabilityCounter := counter, isCapturing := true,
                     collectedFrames := [], timeoutScheduled := true },
            { feedback := some (feedbackOf verdict), emitted := none,
              rescheduled := s1.animationFrameId.isSome })
        else
          ({ s1 with stabilityCounter := counter },
            { feedback := some (feedbackOf verdict), emitted := none,
              rescheduled := s1.animationFrameId.isSome })
      | _ =>
        ({ s1 with stabilityCounter := 0 },
          { feedback := some (feedbackOf verdict), emitted := none,
            rescheduled := s1.animationFrameId.isSome })

/-- The collection-window `setTimeout` callback (lines 153-171).  It cancels
and nulls the animation-frame handle, then either emits the sharpest
buffered candidate through `onCapture` (lines 160-164) or, with an empty
buffer, publishes transient feedback, leaves the capturing state, resets
the counter and restarts the loop (lines 166-169).  It performs no
cancellation check of its own.  A fire with no scheduled timer does not
happen and is modelled as a no-op. -/
def collectionWindowFire (s : ControllerState) : ControllerState × StepOutput :=
  if s.timeoutScheduled = false then (s, noOutput)
  else
    let s1 : ControllerState := { s with timeoutScheduled := false, animationFrameId := none }
    match bestFrame s1.collectedFrames with
    | some best =>
      (s1, { feedback := none, emitted := some ⟨best.imageDataUrl, best.bbox⟩,
             rescheduled := false })
    | none =>
      ({ s1 with isCapturing := false, stabilityCounter := 0, animationFrameId := some () },
        { feedback := some ("Captura falhou. Por favor, tente novamente."), emitted := none,
          rescheduled := true })

/-- Session cancellation: the effect cleanup (lines 227-232, likewise
211-219) cancels a live animation frame and nulls the handle.  It does not
touch the collection-window timer. -/
def cancelSession (s : ControllerState) : ControllerState :=
  { s with animationFrameId := none }

/-- The three kinds of events of a capture session, in the order the
single-threaded scheduler delivers them. -/
inductive SessionEvent where
  | frame (input : FrameInput)
  | windowExpiry
  | cancel
deriving DecidableEq

def sessionStep (s : ControllerState) : SessionEvent → ControllerState × StepOutput
  | .frame input => detectFrameStep s input
  | .windowExpiry => collectionWindowFire s
  | .cancel => (cancelSession s, noOutput)

/-- The state right after the detection effect starts the loop (lines
222-226): zero counter, not capturing, empty buffer, a live scheduling
handle, no pending timer. -/
def initialState : ControllerState := ⟨0, false, [], some (), false⟩

def runSession (s : ControllerState) (events : List SessionEvent) : ControllerState :=
  events.foldl (fun st e => (sessionStep st e).1) s

/-! ## Static image validator (src/unnamed/part_001, lines 352-397) -/

/-- The rejection/acceptance messages of `validateImage`. -/
def noDetectionMessage : String :=
  "Nenhum documento foi detectado. Tente uma imagem mais clara ou com melhor enquadramento."

def uploadTooFarMessage : String :=
  "O documento parece estar muito distante na imagem. Tente uma foto mais aproximada."

def uploadUncenteredMessage : String :=
  "O documento não está centralizado. Tente uma foto com o documento no centro."

def uploadValidMessage : String := "Documento válido."

/-- The value `validateImage` resolves with. -/
structure ValidationResult where
  valid : Bool
  message : String
  bbox : Option Bbox
deriving DecidableEq

/-- The `image.onload` body of `validateImage` (lines 360-391), as a pure
function of the single detector call's result and the image's natural
dimensions: pick the first qualifying detection; with none, reject with a
null bbox; otherwise check size before centering.  No sharpness is
computed. -/
def validateImage (predictions : List Detection) (imageWidth imageHeight : ℚ) :
    ValidationResult :=
  match findValidPredictionUpload predictions with
  | none => ⟨false, noDetectionMessage, none⟩
  | some p =>
    if !stIsLargeEnough p.bbox imageWidth imageHeight then
      ⟨false, uploadTooFarMessage, some p.bbox⟩
    else if !stIsCentered p.bbox imageWidth imageHeight then
      ⟨false, uploadUncenteredMessage, some p.bbox⟩
    else
      ⟨true, uploadValidMessage, some p.bbox⟩

/-! ## Downstream processing aggregation (src/unnamed/part_001, lines 211-226) -/

/-- Structure `FraudResult` of src/types.ts. -/
structure FraudResult where
  success : Bool
  message : String
deriving DecidableEq

/-- Structure `AnalysisResult` of src/types.ts: `ocr` plus `fraud.front`/`fraud.back`,
with `Option` for the `null` fields.  The OCR payload type is abstract. -/
structure AnalysisResult (α : Type) where
  ocr : Option α
  fraudFront : Option FraudResult
  fraudBack : Option FraudResult
deriving DecidableEq

/-- Extraction `results[i].status === 'fulfilled' ? results[i].value : null`. -/
def settledValue {α : Type} : Except String α → Option α
  | .ok v => some v
  | .error _ => none

/-- The aggregation after `Promise.allSettled([ocrPromise, fraudFrontPromise,
fraudBackPromise])` (lines 211-226): collect the rejected results in order,
throw their reasons joined with `'; '` when any exists, otherwise produce
the `AnalysisResult`. -/
def processResults {α : Type} (ocrRes : Except String α)
    (fraudFrontRes fraudBackRes : Except String FraudResult) :
    Except String (AnalysisResult α) :=
  let failed : List String :=
    (match ocrRes with | .error e => [e] | .ok _ => []) ++
      (match fraudFrontRes with | .error e => [e] | .ok _ => []) ++
      (match fraudBackRes with | .error e => [e] | .ok _ => [])
  if failed.length > 0 then
    .error (String.intercalate ("; ") failed)
  else
    .ok ⟨settledValue ocrRes, settledValue fraudFrontRes, settledValue fraudBackRes⟩

/-! ## Concrete inputs used by witnesses and counterexamples -/

/-- A 3×3 RGBA region: every pixel black except the centre pixel, whose red
channel is 1.  Its exact centre luminance is 0.299, which the `Uint8Array`
store truncates to 0. -/
def ex3 : ImageData :=
  ⟨3, 3, [0,0,0,255, 0,0,0,255, 0,0,0,255,
          0,0,0,255, 1,0,0,255, 0,0,0,255,
          0,0,0,255, 0,0,0,255, 0,0,0,255]⟩

/-- A uniform mid-gray 3×3 RGBA region. -/
def flat3 : ImageData :=
  ⟨3, 3, [7,7,7,255, 7,7,7,255, 7,7,7,255,
          7,7,7,255, 7,7,7,255, 7,7,7,255,
          7,7,7,255, 7,7,7,255, 7,7,7,255]⟩

/-- A 4×4 black/white checkerboard in RGBA; its sharpness is 1040400. -/
def checker4 : ImageData :=
  ⟨4, 4, [0,0,0,255, 255,255,255,255, 0,0,0,255, 255,255,255,255,
          255,255,255,255, 0,0,0,255, 255,255,255,255, 0,0,0,255,
          0,0,0,255, 255,255,255,255, 0,0,0,255, 255,255,255,255,
          255,255,255,255, 0,0,0,255, 255,255,255,255, 0,0,0,255]⟩

/-- A bbox filling the 4×4 demo frame. -/
def demoBbox : Bbox := ⟨0, 0, 4, 4⟩

/-- A qualifying detection filling a 4×4 video frame. -/
def okDetection : Detection := ⟨"book", 1/2, demoBbox⟩

/-- A frame input that passes every acceptance criterion on a 4×4 frame. -/
def acceptedInput : FrameInput := ⟨true, [okDetection], 4, 4, some checker4, "snap"⟩

/-- A frame input with no detection at all. -/
def searchInput : FrameInput := ⟨true, [], 4, 4, none, "nosnap"⟩

/-- A qualifying but far-too-small detection on a 100×100 image
(1% of the frame area, off-centre). -/
def smallDetection : Detection := ⟨"book", 9/10, ⟨0, 0, 10, 10⟩⟩

/-- A qualifying detection on a 100×100 image that is large enough (64% of
the area) and perfectly centred. -/
def goodDetection : Detection := ⟨"book", 9/10, ⟨10, 10, 80, 80⟩⟩

/-- Three buffered candidates with sharpness values [5, 9, 7] (the
best-of-N example of the spec). -/
def trioFrames : List CandidateFrame :=
  [⟨"a", demoBbox, 5⟩, ⟨"b", demoBbox, 9⟩, ⟨"c", demoBbox, 7⟩]

/-- A capturing-state controller holding `trioFrames` with the
collection-window timer pending. -/
def trioState : ControllerState := ⟨4, true, trioFrames, some (), true⟩

/-- A capturing-state controller whose collection window is about to expire
with an empty candidate buffer. -/
def emptyWindowState : ControllerState := ⟨4, true, [], some (), true⟩

/-- The event trace of the cancellation race: four accepted frames reach the
stability threshold and schedule the collection window, a fifth accepted
frame is buffered while capturing, then the session is canceled before the
window timer fires. -/
def c6Events : List SessionEvent :=
  [.frame acceptedInput, .frame acceptedInput, .frame acceptedInput, .frame acceptedInput,
    .frame acceptedInput, .cancel]

/-- The stability-counter invariant of a capture session: the counter never
exceeds `STABILITY_THRESHOLD`, and while the controller is not capturing it
stays strictly below it. -/
def CounterInv (s : ControllerState) : Prop :=
  s.stabilityCounter ≤ STABILITY_THRESHOLD ∧
    (s.isCapturing = false → s.stabilityCounter < STABILITY_THRESHOLD)

/-- The stability-reset trace of claim C1: three accepted frames, one lost
frame, then three more accepted frames. -/
def c1Events : List SessionEvent :=
  [.frame acceptedInput, .frame acceptedInput, .frame acceptedInput, .frame searchInput,
    .frame acceptedInput, .frame acceptedInput, .frame acceptedInput]

/-- Four consecutive accepted frames: the shortest trace that reaches the
capturing state. -/
def c1CounterexampleEvents : List SessionEvent :=
  [.frame acceptedInput, .frame acceptedInput, .frame acceptedInput, .frame acceptedInput]

/-! ## Helper lemmas -/

theorem foldl_add_const_count (g : ℕ → ℤ) (c : ℕ) (l : List ℕ) (a : ℤ × ℕ)
    (f : ℤ × ℕ → ℕ → ℤ × ℕ) (hf : ∀ p x, f p x = (p.1 + g x, p.2 + c)) :
    l.foldl f a = (a.1 + (l.map g).sum, a.2 + c * l.length) := by
  induction l generalizing a with
  | nil => simp
  | cons x xs ih =>
    rw [List.foldl_cons, hf, ih]
    simp only [List.map_cons, List.sum_cons, List.length_cons, Prod.mk.injEq]
    exact ⟨by ring, by ring⟩

theorem sum_map_range' (F : ℕ → ℤ) :
    ∀ (n s : ℕ), ((List.range' s n).map F).sum = ∑ x ∈ Finset.Ico s (s + n), F x := by
  intro n
  induction n with
  | zero => intro s; simp
  | succ n ih =>
    intro s
    rw [show List.range' s (n + 1) = s :: List.range' (s + 1) n from rfl,
      List.map_cons, List.sum_cons, ih (s + 1),
      Finset.sum_eq_sum_Ico_succ_bot (by omega : s < s + (n + 1))]
    have hx : s + 1 + n = s + (n + 1) := by omega
    rw [hx]

theorem Ico_one_sub_two (n : ℕ) : Finset.Ico 1 (1 + (n - 2)) = Finset.Ico 1 (n - 1) := by
  ext a
  simp only [Finset.mem_Ico]
  omega

/-- Closed form of `calculateSharpness`: the nested accumulation loops equal
the interior sum of squared Laplacians of the truncated-luminance plane,
divided by the interior pixel count. -/
theorem calculateSharpness_eq (img : ImageData) :
    calculateSharpness img =
      if (img.width - 2) * (img.height - 2) = 0 then 0
      else (interiorLaplacianSqSum (grayAt img) img.width img.height : ℚ) /
        (((img.width - 2) * (img.height - 2) : ℕ) : ℚ) := by
  simp only [calculateSharpness]
  rw [foldl_add_const_count
      (fun y => ((List.range' 1 (img.width - 2)).map
        (fun x => laplacian (grayAt img) img.width x y *
          laplacian (grayAt img) img.width x y)).sum)
      (img.width - 2)
      (List.range' 1 (img.height - 2)) ((0 : ℤ), (0 : ℕ)) _ ?hf]
  case hf =>
    intro p y
    beta_reduce
    exact (foldl_add_const_count _ 1 _ p _ (fun q x => rfl)).trans
      (by simp [laplacian, List.length_range'])
  simp only [List.length_range', interiorLaplacianSqSum, sum_map_range', Ico_one_sub_two,
    zero_add, Nat.zero_add]

theorem interiorLaplacianSqSum_nonneg (g : Nat → ℤ) (w h : Nat) :
    0 ≤ interiorLaplacianSqSum g w h :=
  Finset.sum_nonneg fun _ _ => Finset.sum_nonneg fun _ _ => mul_self_nonneg _

theorem calculateSharpness_nonneg (img : ImageData) : 0 ≤ calculateSharpness img := by
  rw [calculateSharpness_eq]
  split
  · exact le_refl 0
  · apply div_nonneg
    · exact_mod_cast interiorLaplacianSqSum_nonneg (grayAt img) img.width img.height
    · exact_mod_cast Nat.zero_le _

theorem calculateSharpness_small (img : ImageData)
    (h : img.width < 3 ∨ img.height < 3) : calculateSharpness img = 0 := by
  rw [calculateSharpness_eq, if_pos]
  exact Nat.mul_eq_zero.mpr (by omega)

theorem grayAt_const (img : ImageData) (r g b : ℚ)
    (hlen : img.data.length = 4 * (img.width * img.height))
    (hpix : ∀ j, j < img.width * img.height →
      img.data.getD (4 * j) 0 = r ∧ img.data.getD (4 * j + 1) 0 = g ∧
        img.data.getD (4 * j + 2) 0 = b) :
    ∀ j, j < img.width * img.height →
      grayAt img j = jsToUint8 (r * (299/1000) + g * (587/1000) + b * (114/1000)) := by
  intro j hj
  have h2 : 4 * (j + 1) ≤ 4 * (img.width * img.height) := Nat.mul_le_mul_left 4 hj
  obtain ⟨h3, h4, h5⟩ := hpix j hj
  rw [grayAt, if_pos (by omega), h3, h4, h5]

theorem calculateSharpness_uniform (img : ImageData) (r g b : ℚ)
    (hlen : img.data.length = 4 * (img.width * img.height))
    (hpix : ∀ j, j < img.width * img.height →
      img.data.getD (4 * j) 0 = r ∧ img.data.getD (4 * j + 1) 0 = g ∧
        img.data.getD (4 * j + 2) 0 = b) :
    calculateSharpness img = 0 := by
  rw [calculateSharpness_eq]
  split
  · rfl
  · have hz : interiorLaplacianSqSum (grayAt img) img.width img.height = 0 := by
      have hgray := grayAt_const img r g b hlen hpix
      unfold interiorLaplacianSqSum
      apply Finset.sum_eq_zero
      intro y hy
      apply Finset.sum_eq_zero
      intro x hx
      rw [Finset.mem_Ico] at hy hx
      have e1 : (y + 1) * img.width = y * img.width + img.width := Nat.succ_mul y img.width
      have e2 : (y + 2) * img.width = (y + 1) * img.width + img.width :=
        Nat.succ_mul (y + 1) img.width
      have e3 : (y - 1) * img.width ≤ y * img.width :=
        Nat.mul_le_mul_right img.width (by omega)
      have e4 : (y + 2) * img.width ≤ img.height * img.width :=
        Nat.mul_le_mul_right img.width (by omega)
      have ecomm : img.width * img.height = img.height * img.width :=
        Nat.mul_comm img.width img.height
      have hxw : x + 2 ≤ img.width := by omega
      rw [laplacian, hgray (y * img.width + x) (by omega),
        hgray ((y - 1) * img.width + x) (by omega),
        hgray ((y + 1) * img.width + x) (by omega),
        hgray (y * img.width + (x - 1)) (by omega),
        hgray (y * img.width + (x + 1)) (by omega)]
      ring
    rw [hz]
    simp

/-! ## Claim C2 -/

/-- Claim C2 (amended): `calculateSharpness` returns the sum of squared
discrete Laplacians of the *truncated* luminance plane (the `Uint8Array`
store `gray[j] = ToUint8(0.299R + 0.587G + 0.114B)`) over all interior
pixels, divided by the interior pixel count; it returns 0 when the width or
height is below 3; it is non-negative; and it returns 0 on every uniform
region.  Determinism is inherent in the embedding: `calculateSharpness` is
a pure function of the pixel buffer. -/
theorem claim2_sharpness_estimator (img : ImageData) (r g b : ℚ) :
    (calculateSharpness img =
      if (img.width - 2) * (img.height - 2) = 0 then 0
      else (interiorLaplacianSqSum (grayAt img) img.width img.height : ℚ) /
        (((img.width - 2) * (img.height - 2) : ℕ) : ℚ)) ∧
    (img.width < 3 ∨ img.height < 3 → calculateSharpness img = 0) ∧
    0 ≤ calculateSharpness img ∧
    (img.data.length = 4 * (img.width * img.height) →
      (∀ j, j < img.width * img.height →
        img.data.getD (4 * j) 0 = r ∧ img.data.getD (4 * j + 1) 0 = g ∧
          img.data.getD (4 * j + 2) 0 = b) →
      calculateSharpness img = 0) :=
  ⟨calculateSharpness_eq img, calculateSharpness_small img, calculateSharpness_nonneg img,
    fun hlen hpix => calculateSharpness_uniform img r g b hlen hpix⟩

/-- Claim C2, counterexample to the claim as stated: on `ex3` the source
returns 0 (the centre luminance 0.299 is truncated to the byte 0), while
the claimed formula over the exact luminance plane returns
(4·0.299)² = 1.430416. -/
theorem claim2_counterexample :
    calculateSharpness ex3 ≠ sharpnessSpecRealLuminance ex3 ∧
    calculateSharpness ex3 = 0 ∧ sharpnessSpecRealLuminance ex3 = 89401/62500 := by
  have h1 : calculateSharpness ex3 = 0 := by
    norm_num [calculateSharpness, grayAt, jsToUint8, ex3, List.range']
  have h2 : sharpnessSpecRealLuminance ex3 = 89401/62500 := by
    norm_num [sharpnessSpecRealLuminance, ex3, Finset.sum_Ico_eq_sum_range]
  refine ⟨?_, h1, h2⟩
  rw [h1, h2]
  norm_num

/-- Claim C2, witness: the amended theorem applied to the uniform 3×3
region `flat3`. -/
theorem claim2_witness :
    flat3.data.length = 4 * (flat3.width * flat3.height) ∧ calculateSharpness flat3 = 0 :=
  ⟨by norm_num [flat3],
    (claim2_sharpness_estimator flat3 7 7 7).2.2.2 (by norm_num [flat3])
      (by
        intro j hj
        have hj9 : j < 9 := by simpa [flat3] using hj
        interval_cases j <;> norm_num [flat3])⟩

/-! ## Claim C3 -/

theorem foldl_pickBest_spec :
    ∀ (l : List CandidateFrame) (acc : CandidateFrame),
      (l.foldl (fun best current =>
          if current.sharpness > best.sharpness then current else best) acc = acc ∧
        ∀ g ∈ l, g.sharpness ≤ acc.sharpness) ∨
      (∃ i, ∃ hi : i < l.length,
        l.foldl (fun best current =>
          if current.sharpness > best.sharpness then current else best) acc = l.get ⟨i, hi⟩ ∧
        acc.sharpness < (l.get ⟨i, hi⟩).sharpness ∧
        (∀ g ∈ l, g.sharpness ≤ (l.get ⟨i, hi⟩).sharpness) ∧
        ∀ j, ∀ hj : j < i, (l.get ⟨j, Nat.lt_trans hj hi⟩).sharpness < (l.get ⟨i, hi⟩).sharpness)
  | [], acc => by simp
  | x :: xs, acc => by
    rw [List.foldl_cons]
    by_cases hx : x.sharpness > acc.sharpness
    · rw [if_pos hx]
      have hx' : acc.sharpness < x.sharpness := hx
      rcases foldl_pickBest_spec xs x with ⟨heq, hle⟩ | ⟨i, hi, heq, hacc, hall, hfirst⟩
      · right
        refine ⟨0, by simp, ?_, ?_, ?_, ?_⟩
        · simpa using heq
        · simpa using hx
        · intro g hg
          rcases List.mem_cons.mp hg with hg | hg
          · simp [hg]
          · simpa using hle g hg
        · intro j hj
          omega
      · right
        refine ⟨i + 1, by simpa using Nat.succ_lt_succ hi, ?_, ?_, ?_, ?_⟩
        · simpa using heq
        · simp only [List.get_cons_succ]
          exact lt_trans hx' hacc
        · intro g hg
          rcases List.mem_cons.mp hg with hg | hg
          · simp only [List.get_cons_succ, hg]
            exact le_of_lt hacc
          · simpa using hall g hg
        · intro j hj
          match j, hj with
          | 0, _ => simpa using hacc
          | k + 1, hj =>
            simp only [List.get_cons_succ]
            exact hfirst k (by omega)
    · rw [if_neg hx]
      push_neg at hx
      rcases foldl_pickBest_spec xs acc with ⟨heq, hle⟩ | ⟨i, hi, heq, hacc, hall, hfirst⟩
      · left
        refine ⟨heq, ?_⟩
        intro g hg
        rcases List.mem_cons.mp hg with hg | hg
        · simpa [hg] using hx
        · exact hle g hg
      · right
        refine ⟨i + 1, by simpa using Nat.succ_lt_succ hi, ?_, ?_, ?_, ?_⟩
        · simpa using heq
        · simpa using hacc
        · intro g hg
          rcases List.mem_cons.mp hg with hg | hg
          · simp only [List.get_cons_succ, hg]
            exact le_of_lt (lt_of_le_of_lt hx hacc)
          · simpa using hall g hg
        · intro j hj
          match j, hj with
          | 0, _ =>
            simp only [List.get_cons_zero, List.get_cons_succ]
            exact lt_of_le_of_lt hx hacc
          | k + 1, hj =>
            simp only [List.get_cons_succ]
            exact hfirst k (by omega)

/-- Claim C3: at collection-window expiry with a non-empty buffer, the
controller emits through `onCapture` the buffered candidate of maximum
sharpness, the earliest-appended one among ties: the emitted candidate sits
at an index `i`, every buffered candidate's sharpness is at most its
sharpness, and every candidate appended before index `i` has strictly
smaller sharpness. -/
theorem claim3_best_of_n (s : ControllerState) (hts : s.timeoutScheduled = true)
    (hne : s.collectedFrames ≠ []) :
    ∃ f, bestFrame s.collectedFrames = some f ∧
      (collectionWindowFire s).2.emitted = some ⟨f.imageDataUrl, f.bbox⟩ ∧
      ∃ i, ∃ hi : i < s.collectedFrames.length,
        s.collectedFrames.get ⟨i, hi⟩ = f ∧
        (∀ j, ∀ hj : j < s.collectedFrames.length,
          (s.collectedFrames.get ⟨j, hj⟩).sharpness ≤ f.sharpness) ∧
        ∀ j, ∀ hj : j < i,
          (s.collectedFrames.get ⟨j, Nat.lt_trans hj hi⟩).sharpness < f.sharpness := by
  match hl : s.collectedFrames, hne with
  | f0 :: rest, _ =>
    have hbest : bestFrame (f0 :: rest) =
        some (rest.foldl (fun best current =>
          if current.sharpness > best.sharpness then current else best) f0) := rfl
    rcases foldl_pickBest_spec rest f0 with ⟨heq, hle⟩ | ⟨i, hi, heq, hacc, hall, hfirst⟩
    · refine ⟨f0, by rw [hbest, heq], ?_, 0, by simp, by simp, ?_, by omega⟩
      · rw [collectionWindowFire, if_neg (by rw [hts]; simp)]
        simp only [hl, hbest, heq]
      · intro j hj
        match j, hj with
        | 0, _ => simp
        | k + 1, hj =>
          simp only [List.get_cons_succ]
          exact hle _ (List.get_mem rest k (by simpa using hj))
    · refine ⟨rest.get ⟨i, hi⟩, by rw [hbest, heq], ?_, i + 1,
        by simpa using Nat.succ_lt_succ hi, by simp, ?_, ?_⟩
      · rw [collectionWindowFire, if_neg (by rw [hts]; simp)]
        simp only [hl, hbest, heq]
      · intro j hj
        match j, hj with
        | 0, _ => simpa using le_of_lt hacc
        | k + 1, hj =>
          simp only [List.get_cons_succ]
          exact hall _ (List.get_mem rest k (by simpa using hj))
      · intro j hj
        match j, hj with
        | 0, _ => simpa using hacc
        | k + 1, hj =>
          simp only [List.get_cons_succ]
          exact hfirst k (by omega)

/-- Claim C3, witness: the spec's own example, three buffered candidates
with sharpness values [5, 9, 7]. -/
theorem claim3_witness :
    (trioState.timeoutScheduled = true ∧ trioState.collectedFrames ≠ []) ∧
      ∃ f, bestFrame trioState.collectedFrames = some f ∧
        (collectionWindowFire trioState).2.emitted = some ⟨f.imageDataUrl, f.bbox⟩ ∧
        ∃ i, ∃ hi : i < trioState.collectedFrames.length,
          trioState.collectedFrames.get ⟨i, hi⟩ = f ∧
          (∀ j, ∀ hj : j < trioState.collectedFrames.length,
            (trioState.collectedFrames.get ⟨j, hj⟩).sharpness ≤ f.sharpness) ∧
          ∀ j, ∀ hj : j < i,
            (trioState.collectedFrames.get ⟨j, Nat.lt_trans hj hi⟩).sharpness < f.sharpness :=
  ⟨⟨rfl, by simp [trioState, trioFrames]⟩,
    claim3_best_of_n trioState rfl (by simp [trioState, trioFrames])⟩

/-! ## Claim C4 -/

/-- Claim C4: when a qualifying detection fails several criteria at once a
single rejection reason is produced, in fixed precedence order — realtime:
sharpness (`Blurred`) before size (`TooFar`) before centering
(`Uncentered`); static upload: size before centering.  Hence a detection
that is simultaneously too small and off-centre yields `TooFar` and never
`Uncentered` in both paths (in the realtime path, provided the sharpness
gate — which is checked even earlier — passes). -/
theorem claim4_rejection_precedence :
    (∀ preds p vw vh img, findValidPrediction preds = some p →
      (calculateSharpness img < SHARPNESS_THRESHOLD →
        evaluateFrame preds vw vh (some img) = Verdict.Blurred) ∧
      (SHARPNESS_THRESHOLD ≤ calculateSharpness img →
        rtIsLargeEnough p.bbox vw vh = false →
        evaluateFrame preds vw vh (some img) = Verdict.TooFar) ∧
      (SHARPNESS_THRESHOLD ≤ calculateSharpness img →
        rtIsLargeEnough p.bbox vw vh = true → rtIsCentered p.bbox vw vh = false →
        evaluateFrame preds vw vh (some img) = Verdict.Uncentered)) ∧
    (∀ preds p w h, findValidPredictionUpload preds = some p →
      (stIsLargeEnough p.bbox w h = false →
        validateImage preds w h = ⟨false, uploadTooFarMessage, some p.bbox⟩) ∧
      (stIsLargeEnough p.bbox w h = true → stIsCentered p.bbox w h = false →
        validateImage preds w h = ⟨false, uploadUncenteredMessage, some p.bbox⟩)) ∧
    (∀ preds p vw vh img, findValidPrediction preds = some p →
      SHARPNESS_THRESHOLD ≤ calculateSharpness img →
      rtIsLargeEnough p.bbox vw vh = false → rtIsCentered p.bbox vw vh = false →
      evaluateFrame preds vw vh (some img) = Verdict.TooFar ∧
      evaluateFrame preds vw vh (some img) ≠ Verdict.Uncentered) ∧
    (∀ preds p w h, findValidPredictionUpload preds = some p →
      stIsLargeEnough p.bbox w h = false → stIsCentered p.bbox w h = false →
      validateImage preds w h = ⟨false, uploadTooFarMessage, some p.bbox⟩ ∧
      (validateImage preds w h).message ≠ uploadUncenteredMessage) := by
  have hrt : ∀ preds p vw vh img, findValidPrediction preds = some p →
      (calculateSharpness img < SHARPNESS_THRESHOLD →
        evaluateFrame preds vw vh (some img) = Verdict.Blurred) ∧
      (SHARPNESS_THRESHOLD ≤ calculateSharpness img →
        rtIsLargeEnough p.bbox vw vh = false →
        evaluateFrame preds vw vh (some img) = Verdict.TooFar) ∧
      (SHARPNESS_THRESHOLD ≤ calculateSharpness img →
        rtIsLargeEnough p.bbox vw vh = true → rtIsCentered p.bbox vw vh = false →
        evaluateFrame preds vw vh (some img) = Verdict.Uncentered) := by
    intro preds p vw vh img hfind
    refine ⟨?_, ?_, ?_⟩
    · intro hs
      simp only [evaluateFrame, hfind]
      rw [if_pos hs]
    · intro hs hL
      simp only [evaluateFrame, hfind]
      rw [if_neg (not_lt.mpr hs), if_pos (by rw [hL]; rfl)]
    · intro hs hL hC
      simp only [evaluateFrame, hfind]
      rw [if_neg (not_lt.mpr hs), if_neg (by rw [hL]; simp), if_pos (by rw [hC]; rfl)]
  have hst : ∀ preds p w h, findValidPredictionUpload preds = some p →
      (stIsLargeEnough p.bbox w h = false →
        validateImage preds w h = ⟨false, uploadTooFarMessage, some p.bbox⟩) ∧
      (stIsLargeEnough p.bbox w h = true → stIsCentered p.bbox w h = false →
        validateImage preds w h = ⟨false, uploadUncenteredMessage, some p.bbox⟩) := by
    intro preds p w h hfind
    constructor
    · intro hL
      simp only [validateImage, hfind]
      rw [if_pos (by rw [hL]; rfl)]
    · intro hL hC
      simp only [validateImage, hfind]
      rw [if_neg (by rw [hL]; simp), if_pos (by rw [hC]; rfl)]
  refine ⟨hrt, hst, ?_, ?_⟩
  · intro preds p vw vh img hfind hs hL hC
    refine ⟨(hrt preds p vw vh img hfind).2.1 hs hL, ?_⟩
    rw [(hrt preds p vw vh img hfind).2.1 hs hL]
    intro hcontra
    exact Verdict.noConfusion hcontra
  · intro preds p w h hfind hL hC
    refine ⟨(hst preds p w h hfind).1 hL, ?_⟩
    rw [(hst preds p w h hfind).1 hL]
    intro hcontra
    have : uploadTooFarMessage = uploadUncenteredMessage := hcontra
    rw [uploadTooFarMessage, uploadUncenteredMessage] at this
    simp at this

/-- Claim C4, witness: a qualifying detection occupying 1% of a 100×100
image, far off-centre, is rejected as too far — never as uncentered. -/
theorem claim4_witness :
    findValidPredictionUpload [smallDetection] = some smallDetection ∧
    stIsLargeEnough smallDetection.bbox 100 100 = false ∧
    stIsCentered smallDetection.bbox 100 100 = false ∧
    validateImage [smallDetection] 100 100 =
      ⟨false, uploadTooFarMessage, some smallDetection.bbox⟩ ∧
    (validateImage [smallDetection] 100 100).message ≠ uploadUncenteredMessage := by
  have h1 : findValidPredictionUpload [smallDetection] = some smallDetection := by
    rw [findValidPredictionUpload, List.find?_cons_of_pos]
    rw [qualifies]
    norm_num [smallDetection, TARGET_CLASSES, DETECTION_CONFIDENCE_THRESHOLD]
  have h2 : stIsLargeEnough smallDetection.bbox 100 100 = false := by
    rw [stIsLargeEnough]
    norm_num [smallDetection, FRAME_AREA_THRESHOLD]
  have h3 : stIsCentered smallDetection.bbox 100 100 = false := by
    rw [stIsCentered]
    norm_num [smallDetection, CENTER_THRESHOLD]
  obtain ⟨ha, hb⟩ :=
    claim4_rejection_precedence.2.2.2 [smallDetection] smallDetection 100 100 h1 h2 h3
  exact ⟨h1, h2, h3, ha, hb⟩

/-! ## Claim C5 -/

theorem find?_eq_some_first {α : Type} (p : α → Bool) :
    ∀ (l : List α) (a : α),
      l.find? p = some a ↔
        ∃ i, ∃ hi : i < l.length, l.get ⟨i, hi⟩ = a ∧ p a = true ∧
          ∀ j, ∀ hj : j < i, ¬(p (l.get ⟨j, Nat.lt_trans hj hi⟩) = true)
  | [], a => by simp
  | x :: xs, a => by
    cases hpx : p x
    · rw [List.find?_cons_of_neg _ (by simp [hpx]), find?_eq_some_first p xs a]
      constructor
      · rintro ⟨i, hi, hget, hpa, hfirst⟩
        refine ⟨i + 1, by simpa using Nat.succ_lt_succ hi, by simpa using hget, hpa, ?_⟩
        intro j hj
        match j, hj with
        | 0, _ => simp [hpx]
        | k + 1, hj => simpa using hfirst k (by omega)
      · rintro ⟨i, hi, hget, hpa, hfirst⟩
        match i, hi, hget, hfirst with
        | 0, hi, hget, _ =>
          have hxa : x = a := hget
          rw [hxa] at hpx
          rw [hpx] at hpa
          exact absurd hpa (by simp)
        | k + 1, hi, hget, hfirst =>
          refine ⟨k, by simpa using hi, by simpa using hget, hpa, ?_⟩
          intro j hj
          simpa using hfirst (j + 1) (by omega)
    · rw [List.find?_cons_of_pos _ hpx]
      constructor
      · intro h
        have hxa : x = a := by simpa using h
        refine ⟨0, by simp, by simpa using hxa, by rw [← hxa]; exact hpx, ?_⟩
        intro j hj
        omega
      · rintro ⟨i, hi, hget, hpa, hfirst⟩
        match i, hi, hget, hfirst with
        | 0, hi, hget, _ => simpa using hget
        | k + 1, hi, hget, hfirst =>
          exact absurd (by simpa using hfirst 0 (by omega)) (by simp [hpx])

/-- Claim C5: both paths select the first detection in list order whose
class is targeted and whose score strictly exceeds the confidence
threshold; with none the realtime verdict is `Searching`; and the size and
centering predicates are the claimed strict inequalities, computed
identically by the realtime and static paths. -/
theorem claim5_qualifying_selection :
    (∀ preds p, findValidPrediction preds = some p ↔
      ∃ i, ∃ hi : i < preds.length, preds.get ⟨i, hi⟩ = p ∧
        (p.cls ∈ TARGET_CLASSES ∧ p.score > DETECTION_CONFIDENCE_THRESHOLD) ∧
        ∀ j, ∀ hj : j < i,
          ¬((preds.get ⟨j, Nat.lt_trans hj hi⟩).cls ∈ TARGET_CLASSES ∧
            (preds.get ⟨j, Nat.lt_trans hj hi⟩).score > DETECTION_CONFIDENCE_THRESHOLD)) ∧
    (∀ preds, findValidPrediction preds = none ↔
      ∀ p ∈ preds, ¬(p.cls ∈ TARGET_CLASSES ∧ p.score > DETECTION_CONFIDENCE_THRESHOLD)) ∧
    (∀ preds vw vh cd, findValidPrediction preds = none →
      evaluateFrame preds vw vh cd = Verdict.Searching) ∧
    (∀ preds, findValidPredictionUpload preds = findValidPrediction preds) ∧
    (∀ b w h, rtIsLargeEnough b w h = stIsLargeEnough b w h) ∧
    (∀ b w h, rtIsCentered b w h = stIsCentered b w h) ∧
    (∀ b w h, rtIsLargeEnough b w h = true ↔
      b.width * b.height / (w * h) > FRAME_AREA_THRESHOLD) ∧
    (∀ b w h, rtIsCentered b w h = true ↔
      |b.x + b.width / 2 - w / 2| < w * CENTER_THRESHOLD ∧
      |b.y + b.height / 2 - h / 2| < h * CENTER_THRESHOLD) := by
  refine ⟨?_, ?_, ?_, fun preds => rfl, fun b w h => rfl, fun b w h => rfl, ?_, ?_⟩
  · intro preds p
    rw [findValidPrediction, find?_eq_some_first]
    simp only [qualifies, Bool.and_eq_true, decide_eq_true_eq, List.contains, List.elem_iff]
  · intro preds
    rw [findValidPrediction, List.find?_eq_none]
    simp only [qualifies, Bool.and_eq_true, decide_eq_true_eq, List.contains, List.elem_iff]
  · intro preds vw vh cd hnone
    simp only [evaluateFrame, hnone]
  · intro b w h
    rw [rtIsLargeEnough]
    simp only [decide_eq_true_eq]
  · intro b w h
    rw [rtIsCentered]
    simp only [Bool.and_eq_true, decide_eq_true_eq]

/-- Claim C5, witness: on the two-detection list of the upload
counterexample, the selected detection is the first qualifying one. -/
theorem claim5_witness :
    findValidPrediction [smallDetection, goodDetection] = some smallDetection ∧
    smallDetection.cls ∈ TARGET_CLASSES ∧
    smallDetection.score > DETECTION_CONFIDENCE_THRESHOLD := by
  have hmem : smallDetection.cls ∈ TARGET_CLASSES := by
    rw [smallDetection, TARGET_CLASSES]
    simp
  have hscore : smallDetection.score > DETECTION_CONFIDENCE_THRESHOLD := by
    rw [smallDetection, DETECTION_CONFIDENCE_THRESHOLD]
    norm_num
  refine ⟨?_, hmem, hscore⟩
  exact (claim5_qualifying_selection.1 [smallDetection, goodDetection] smallDetection).mpr
    ⟨0, by simp, by simp, ⟨hmem, hscore⟩, by omega⟩

/-! ## Controller step lemmas -/

theorem detectFrameStep_not_ready (s : ControllerState) (i : FrameInput)
    (h : i.ready = false) :
    detectFrameStep s i = (s, { feedback := none, emitted := none,
                                rescheduled := s.animationFrameId.isSome }) := by
  rw [detectFrameStep, if_pos h]

theorem detectFrameStep_accepted (s : ControllerState) (i : FrameInput) (b : Bbox) (q : ℚ)
    (hready : i.ready = true)
    (hv : evaluateFrame i.predictions i.videoWidth i.videoHeight i.cropData =
      Verdict.Accepted b q)
    (hnc : s.isCapturing = false) :
    detectFrameStep s i =
      (if STABILITY_THRESHOLD ≤ s.stabilityCounter + 1 then
        { s with stabilityCounter := s.stabilityCounter + 1, isCapturing := true,
                 collectedFrames := [], timeoutScheduled := true }
       else { s with stabilityCounter := s.stabilityCounter + 1 },
       { feedback := some (feedbackOf (Verdict.Accepted b q)), emitted := none,
         rescheduled := s.animationFrameId.isSome }) := by
  rw [detectFrameStep, if_neg (by rw [hready]; simp)]
  simp only [hv, hnc, if_neg Bool.false_ne_true]
  split <;> rfl

theorem detectFrameStep_capturing_accepted (s : ControllerState) (i : FrameInput)
    (b : Bbox) (q : ℚ) (hready : i.ready = true)
    (hv : evaluateFrame i.predictions i.videoWidth i.videoHeight i.cropData =
      Verdict.Accepted b q)
    (hc : s.isCapturing = true) :
    detectFrameStep s i =
      ({ s with collectedFrames := s.collectedFrames ++ [⟨i.snapshotUrl, b, q⟩] },
       { feedback := none, emitted := none, rescheduled := s.animationFrameId.isSome }) := by
  rw [detectFrameStep, if_neg (by rw [hready]; simp)]
  simp only [hv, hc, if_pos]

theorem detectFrameStep_not_accepted (s : ControllerState) (i : FrameInput) (v : Verdict)
    (hready : i.ready = true)
    (hv : evaluateFrame i.predictions i.videoWidth i.videoHeight i.cropData = v)
    (hna : ∀ b q, v ≠ Verdict.Accepted b q) (hnc : s.isCapturing = false) :
    detectFrameStep s i =
      ({ s with stabilityCounter := 0 },
       { feedback := some (feedbackOf v), emitted := none,
         rescheduled := s.animationFrameId.isSome }) := by
  rw [detectFrameStep, if_neg (by rw [hready]; simp)]
  cases v with
  | Accepted b q => exact absurd rfl (hna b q)
  | Searching => simp only [hv, hnc, if_neg Bool.false_ne_true]
  | NoContext => simp only [hv, hnc, if_neg Bool.false_ne_true]
  | Blurred => simp only [hv, hnc, if_neg Bool.false_ne_true]
  | TooFar => simp only [hv, hnc, if_neg Bool.false_ne_true]
  | Uncentered => simp only [hv, hnc, if_neg Bool.false_ne_true]

theorem detectFrameStep_capturing_not_accepted (s : ControllerState) (i : FrameInput)
    (v : Verdict) (hready : i.ready = true)
    (hv : evaluateFrame i.predictions i.videoWidth i.videoHeight i.cropData = v)
    (hna : ∀ b q, v ≠ Verdict.Accepted b q) (hc : s.isCapturing = true) :
    detectFrameStep s i =
      (s, { feedback := none, emitted := none,
            rescheduled := s.animationFrameId.isSome }) := by
  rw [detectFrameStep, if_neg (by rw [hready]; simp)]
  cases v with
  | Accepted b q => exact absurd rfl (hna b q)
  | Searching => simp only [hv, hc, if_pos]
  | NoContext => simp only [hv, hc, if_pos]
  | Blurred => simp only [hv, hc, if_pos]
  | TooFar => simp only [hv, hc, if_pos]
  | Uncentered => simp only [hv, hc, if_pos]

theorem collectionWindowFire_nonempty (s : ControllerState) (f : CandidateFrame)
    (hts : s.timeoutScheduled = true) (hb : bestFrame s.collectedFrames = some f) :
    collectionWindowFire s =
      ({ s with timeoutScheduled := false, animationFrameId := none },
       { feedback := none, emitted := some ⟨f.imageDataUrl, f.bbox⟩, rescheduled := false }) := by
  rw [collectionWindowFire, if_neg (by rw [hts]; simp)]
  simp only [hb]

theorem collectionWindowFire_empty (s : ControllerState)
    (hts : s.timeoutScheduled = true) (he : s.collectedFrames = []) :
    collectionWindowFire s =
      ({ s with timeoutScheduled := false, isCapturing := false, stabilityCounter := 0,
                animationFrameId := some () },
       { feedback := some ("Captura falhou. Por favor, tente novamente."), emitted := none,
         rescheduled := true }) := by
  rw [collectionWindowFire, if_neg (by rw [hts]; simp)]
  have : bestFrame ({ s with timeoutScheduled := false,
                             animationFrameId := none } : ControllerState).collectedFrames =
      none := by
    simp only [he, bestFrame]
  simp only [this]

/-! ## Concrete evaluations for the demo inputs -/

set_option maxHeartbeats 2000000 in
theorem checker4_sharpness : calculateSharpness checker4 = 1040400 := by
  norm_num [calculateSharpness, grayAt, jsToUint8, checker4, List.range']

theorem acceptedInput_verdict :
    evaluateFrame acceptedInput.predictions acceptedInput.videoWidth
      acceptedInput.videoHeight acceptedInput.cropData = Verdict.Accepted demoBbox 1040400 := by
  have hfind : findValidPrediction [okDetection] = some okDetection := by
    rw [findValidPrediction, List.find?_cons_of_pos]
    rw [qualifies]
    norm_num [okDetection, TARGET_CLASSES, DETECTION_CONFIDENCE_THRESHOLD]
  have hL : rtIsLargeEnough demoBbox 4 4 = true := by
    rw [rtIsLargeEnough]
    norm_num [demoBbox, FRAME_AREA_THRESHOLD]
  have hC : rtIsCentered demoBbox 4 4 = true := by
    rw [rtIsCentered]
    norm_num [demoBbox, CENTER_THRESHOLD]
  simp only [acceptedInput, evaluateFrame, hfind]
  rw [checker4_sharpness]
  rw [if_neg (by rw [SHARPNESS_THRESHOLD]; norm_num)]
  rw [show okDetection.bbox = demoBbox from rfl]
  simp [hL, hC]

theorem searchInput_verdict :
    evaluateFrame searchInput.predictions searchInput.videoWidth
      searchInput.videoHeight searchInput.cropData = Verdict.Searching := rfl

theorem demo_tick_inc (c : Nat) (h : c + 1 < STABILITY_THRESHOLD) :
    (detectFrameStep ⟨c, false, [], some (), false⟩ acceptedInput).1 =
      ⟨c + 1, false, [], some (), false⟩ := by
  rw [detectFrameStep_accepted _ _ demoBbox 1040400 rfl acceptedInput_verdict rfl,
    if_neg (by show ¬(STABILITY_THRESHOLD ≤ c + 1); omega)]

theorem demo_tick_trigger :
    (detectFrameStep ⟨3, false, [], some (), false⟩ acceptedInput).1 =
      ⟨4, true, [], some (), true⟩ := by
  rw [detectFrameStep_accepted _ _ demoBbox 1040400 rfl acceptedInput_verdict rfl,
    if_pos (by rw [STABILITY_THRESHOLD])]

theorem demo_tick_search_reset :
    (detectFrameStep ⟨3, false, [], some (), false⟩ searchInput).1 =
      ⟨0, false, [], some (), false⟩ := by
  rw [detectFrameStep_not_accepted _ _ Verdict.Searching rfl searchInput_verdict
    (fun b q h => Verdict.noConfusion h) rfl]

theorem demo_run_stabilize :
    runSession initialState c1CounterexampleEvents = ⟨4, true, [], some (), true⟩ := by
  simp only [runSession, c1CounterexampleEvents, List.foldl_cons, List.foldl_nil,
    sessionStep, initialState]
  rw [demo_tick_inc 0 (by rw [STABILITY_THRESHOLD]; omega),
    demo_tick_inc 1 (by rw [STABILITY_THRESHOLD]; omega),
    demo_tick_inc 2 (by rw [STABILITY_THRESHOLD]; omega),
    demo_tick_trigger]

theorem demo_run_c1 :
    runSession initialState c1Events = ⟨3, false, [], some (), false⟩ := by
  simp only [runSession, c1Events, List.foldl_cons, List.foldl_nil,
    sessionStep, initialState]
  rw [demo_tick_inc 0 (by rw [STABILITY_THRESHOLD]; omega),
    demo_tick_inc 1 (by rw [STABILITY_THRESHOLD]; omega),
    demo_tick_inc 2 (by rw [STABILITY_THRESHOLD]; omega),
    demo_tick_search_reset,
    demo_tick_inc 0 (by rw [STABILITY_THRESHOLD]; omega),
    demo_tick_inc 1 (by rw [STABILITY_THRESHOLD]; omega),
    demo_tick_inc 2 (by rw [STABILITY_THRESHOLD]; omega)]

/-! ## Claim C1 -/

/-- Claim C1, counterexample to the claim as stated: after the controller
enters the capturing state (counter at `STABILITY_THRESHOLD`, a reachable
state exhibited by running four accepted frames from the initial state), a
frame whose verdict is `Searching` — not `Accepted` — leaves the stability
counter at `STABILITY_THRESHOLD` instead of resetting it to 0: the reset is
guarded by `!isCapturing` in the source. -/
theorem claim1_counterexample :
    (runSession initialState c1CounterexampleEvents).isCapturing = true ∧
    (runSession initialState c1CounterexampleEvents).stabilityCounter = STABILITY_THRESHOLD ∧
    evaluateFrame searchInput.predictions searchInput.videoWidth searchInput.videoHeight
      searchInput.cropData = Verdict.Searching ∧
    (detectFrameStep (runSession initialState c1CounterexampleEvents)
      searchInput).1.stabilityCounter = STABILITY_THRESHOLD := by
  have hstep : (detectFrameStep ⟨4, true, [], some (), true⟩ searchInput).1 =
      ⟨4, true, [], some (), true⟩ := by
    rw [detectFrameStep_capturing_not_accepted _ _ Verdict.Searching rfl searchInput_verdict
      (fun b q h => Verdict.noConfusion h) rfl]
  rw [demo_run_stabilize]
  exact ⟨rfl, rfl, searchInput_verdict, by rw [hstep]; rfl⟩


/-- Claim C1 (amended): while the controller is *not yet capturing*, a
non-`Accepted` frame resets the stability counter to 0 and an `Accepted`
frame increments it by 1; the controller enters the capturing state exactly
when the counter reaches `STABILITY_THRESHOLD`, clearing the candidate
buffer and scheduling the collection window.  (While capturing, the counter
block is skipped entirely.)  In particular, after `STABILITY_THRESHOLD − 1`
accepted frames and one lost frame, a further full run of
`STABILITY_THRESHOLD` accepted frames is required to leave the stabilizing
phase: the trace `c1Events` ends un-capturing with counter
`STABILITY_THRESHOLD − 1`, and one more accepted frame triggers capture. -/
theorem claim1_stability_protocol (s : ControllerState) (i : FrameInput) (v : Verdict)
    (hready : i.ready = true)
    (hv : evaluateFrame i.predictions i.videoWidth i.videoHeight i.cropData = v)
    (hnc : s.isCapturing = false) :
    ((∀ b q, v ≠ Verdict.Accepted b q) →
      (detectFrameStep s i).1.stabilityCounter = 0 ∧
      (detectFrameStep s i).1.isCapturing = false) ∧
    (∀ b q, v = Verdict.Accepted b q →
      (detectFrameStep s i).1.stabilityCounter = s.stabilityCounter + 1 ∧
      ((detectFrameStep s i).1.isCapturing = true ↔
        STABILITY_THRESHOLD ≤ s.stabilityCounter + 1) ∧
      (STABILITY_THRESHOLD ≤ s.stabilityCounter + 1 →
        (detectFrameStep s i).1.collectedFrames = [] ∧
        (detectFrameStep s i).1.timeoutScheduled = true)) ∧
    (runSession initialState c1Events).stabilityCounter = STABILITY_THRESHOLD - 1 ∧
    (runSession initialState c1Events).isCapturing = false ∧
    (detectFrameStep (runSession initialState c1Events) acceptedInput).1.isCapturing = true := by
  refine ⟨?_, ?_, ?_, ?_, ?_⟩
  · intro hna
    rw [detectFrameStep_not_accepted s i v hready hv hna hnc]
    exact ⟨rfl, hnc⟩
  · intro b q hvb
    rw [hvb] at hv
    rw [detectFrameStep_accepted s i b q hready hv hnc]
    by_cases h4 : STABILITY_THRESHOLD ≤ s.stabilityCounter + 1
    · rw [if_pos h4]
      exact ⟨rfl, by simp [h4], fun _ => ⟨rfl, rfl⟩⟩
    · rw [if_neg h4]
      exact ⟨rfl, by simp [hnc, h4], fun h => absurd h h4⟩
  · rw [demo_run_c1]
    rfl
  · rw [demo_run_c1]
  · rw [demo_run_c1, demo_tick_trigger]

/-- Claim C1, witness: one accepted frame from the initial state increments
the counter from 0 to 1 without capturing. -/
theorem claim1_witness :
    (acceptedInput.ready = true ∧ initialState.isCapturing = false ∧
      evaluateFrame acceptedInput.predictions acceptedInput.videoWidth
        acceptedInput.videoHeight acceptedInput.cropData = Verdict.Accepted demoBbox 1040400) ∧
    (detectFrameStep initialState acceptedInput).1.stabilityCounter =
      initialState.stabilityCounter + 1 :=
  ⟨⟨rfl, rfl, acceptedInput_verdict⟩,
    ((claim1_stability_protocol initialState acceptedInput (Verdict.Accepted demoBbox 1040400)
      rfl acceptedInput_verdict rfl).2.1 demoBbox 1040400 rfl).1⟩

/-! ## Claim C7 -/

/-- Claim C7: when the collection window expires with an empty candidate
buffer, no capture is emitted, the controller leaves the capturing state
with the stability counter reset to 0, only transient feedback is
published, and the acquisition loop is restarted. -/
theorem claim7_empty_window_recovery (s : ControllerState)
    (hts : s.timeoutScheduled = true) (hempty : s.collectedFrames = []) :
    (collectionWindowFire s).2.emitted = none ∧
    (collectionWindowFire s).2.feedback = some ("Captura falhou. Por favor, tente novamente.") ∧
    (collectionWindowFire s).1.isCapturing = false ∧
    (collectionWindowFire s).1.stabilityCounter = 0 ∧
    (collectionWindowFire s).1.collectedFrames = [] ∧
    (collectionWindowFire s).1.timeoutScheduled = false ∧
    (collectionWindowFire s).1.animationFrameId = some () ∧
    (collectionWindowFire s).2.rescheduled = true := by
  rw [collectionWindowFire_empty s hts hempty]
  exact ⟨rfl, rfl, rfl, rfl, hempty, rfl, rfl, rfl⟩

/-- Claim C7, witness: the empty-buffer expiry applied to a concrete
capturing state. -/
theorem claim7_witness :
    (emptyWindowState.timeoutScheduled = true ∧ emptyWindowState.collectedFrames = []) ∧
    (collectionWindowFire emptyWindowState).2.emitted = none ∧
    (collectionWindowFire emptyWindowState).1.isCapturing = false ∧
    (collectionWindowFire emptyWindowState).1.stabilityCounter = 0 ∧
    (collectionWindowFire emptyWindowState).2.rescheduled = true :=
  ⟨⟨rfl, rfl⟩, (claim7_empty_window_recovery emptyWindowState rfl rfl).1,
    (claim7_empty_window_recovery emptyWindowState rfl rfl).2.2.1,
    (claim7_empty_window_recovery emptyWindowState rfl rfl).2.2.2.1,
    (claim7_empty_window_recovery emptyWindowState rfl rfl).2.2.2.2.2.2.2⟩

/-! ## Claim C6 -/

/-- Claim C6: the source nulls the scheduling handle on cancellation and the
resumed in-flight detector call then refrains from rescheduling the loop
(lines 178-180), as the claim demands — but the collection-window
`setTimeout` callback performs no cancellation check at all (and the
cleanup never clears the timeout), so a window timer that fires after
cancellation still emits a buffered capture through `onCapture`, and in the
empty-buffer case even restarts the acquisition loop.  This theorem
evaluates the code on the failing trace `c6Events`: four accepted frames
reach capturing, a fifth is buffered, the session is canceled — then the
timer fire emits `some ⟨"snap", demoBbox⟩` instead of being a no-op. -/
theorem claim6_cancellation_race :
    runSession initialState c6Events =
      ⟨STABILITY_THRESHOLD, true, [⟨"snap", demoBbox, 1040400⟩], none, true⟩ ∧
    (detectFrameStep (runSession initialState c6Events) acceptedInput).2.rescheduled = false ∧
    (collectionWindowFire (runSession initialState c6Events)).2.emitted =
      some ⟨"snap", demoBbox⟩ ∧
    (collectionWindowFire ⟨STABILITY_THRESHOLD, true, [], none, true⟩).1.animationFrameId =
      some () ∧
    (collectionWindowFire ⟨STABILITY_THRESHOLD, true, [], none, true⟩).2.rescheduled = true := by
  have h5 : (detectFrameStep ⟨4, true, [], some (), true⟩ acceptedInput).1 =
      ⟨4, true, [⟨"snap", demoBbox, 1040400⟩], some (), true⟩ := by
    rw [detectFrameStep_capturing_accepted _ _ demoBbox 1040400 rfl acceptedInput_verdict rfl]
    rfl
  have hrun : runSession initialState c6Events =
      ⟨4, true, [⟨"snap", demoBbox, 1040400⟩], none, true⟩ := by
    simp only [runSession, c6Events, List.foldl_cons, List.foldl_nil, sessionStep, initialState]
    rw [demo_tick_inc 0 (by rw [STABILITY_THRESHOLD]; omega),
      demo_tick_inc 1 (by rw [STABILITY_THRESHOLD]; omega),
      demo_tick_inc 2 (by rw [STABILITY_THRESHOLD]; omega),
      demo_tick_trigger, h5]
    rfl
  have hfire : collectionWindowFire ⟨4, true, [⟨"snap", demoBbox, 1040400⟩], none, true⟩ =
      (⟨4, true, [⟨"snap", demoBbox, 1040400⟩], none, false⟩,
       { feedback := none, emitted := some ⟨"snap", demoBbox⟩, rescheduled := false }) := by
    rw [collectionWindowFire_nonempty ⟨4, true, [⟨"snap", demoBbox, 1040400⟩], none, true⟩
      ⟨"snap", demoBbox, 1040400⟩ rfl rfl]
  have htick : (detectFrameStep ⟨4, true, [⟨"snap", demoBbox, 1040400⟩], none, true⟩
      acceptedInput).2.rescheduled = false := by
    rw [detectFrameStep_capturing_accepted _ _ demoBbox 1040400 rfl acceptedInput_verdict rfl]
    rfl
  have hempty : collectionWindowFire ⟨4, true, [], none, true⟩ =
      (⟨0, false, [], some (), false⟩,
       { feedback := some ("Captura falhou. Por favor, tente novamente."), emitted := none,
         rescheduled := true }) := by
    rw [collectionWindowFire_empty ⟨4, true, [], none, true⟩ rfl rfl]
  refine ⟨hrun, ?_, ?_, ?_, ?_⟩
  · rw [hrun, htick]
  · rw [hrun, hfire]
  · rw [show (STABILITY_THRESHOLD : Nat) = 4 from rfl, hempty]
  · rw [show (STABILITY_THRESHOLD : Nat) = 4 from rfl, hempty]

/-! ## Claim C10 -/

theorem sessionStep_counter_cases (s : ControllerState) (e : SessionEvent) :
    ((sessionStep s e).1.stabilityCounter = s.stabilityCounter ∧
      (sessionStep s e).1.isCapturing = s.isCapturing) ∨
    ((sessionStep s e).1.stabilityCounter = 0 ∧ (sessionStep s e).1.isCapturing = false) ∨
    (s.isCapturing = false ∧ (∃ i, e = SessionEvent.frame i) ∧
      (sessionStep s e).1.stabilityCounter = s.stabilityCounter + 1 ∧
      ((sessionStep s e).1.isCapturing = true ↔
        STABILITY_THRESHOLD ≤ s.stabilityCounter + 1)) := by
  cases e with
  | cancel => exact Or.inl ⟨rfl, rfl⟩
  | windowExpiry =>
    by_cases hts : s.timeoutScheduled = false
    · rw [sessionStep, collectionWindowFire, if_pos hts]
      exact Or.inl ⟨rfl, rfl⟩
    · have hts' : s.timeoutScheduled = true := by
        revert hts
        cases s.timeoutScheduled <;> simp
      rcases hl : s.collectedFrames with _ | ⟨f0, rest⟩
      · rw [sessionStep, collectionWindowFire_empty s hts' hl]
        exact Or.inr (Or.inl ⟨rfl, rfl⟩)
      · rw [sessionStep, collectionWindowFire_nonempty s
          (rest.foldl (fun best current =>
            if current.sharpness > best.sharpness then current else best) f0) hts'
          (by rw [hl, bestFrame])]
        exact Or.inl ⟨rfl, rfl⟩
  | frame i =>
    by_cases hr : i.ready = false
    · rw [sessionStep, detectFrameStep_not_ready s i hr]
      exact Or.inl ⟨rfl, rfl⟩
    · have hr' : i.ready = true := by
        revert hr
        cases i.ready <;> simp
      have hsplit : (∃ b q, evaluateFrame i.predictions i.videoWidth i.videoHeight i.cropData =
            Verdict.Accepted b q) ∨
          (∀ b q, evaluateFrame i.predictions i.videoWidth i.videoHeight i.cropData ≠
            Verdict.Accepted b q) := by
        cases evaluateFrame i.predictions i.videoWidth i.videoHeight i.cropData with
        | Accepted b q => exact Or.inl ⟨b, q, rfl⟩
        | Searching => exact Or.inr fun b q h => Verdict.noConfusion h
        | NoContext => exact Or.inr fun b q h => Verdict.noConfusion h
        | Blurred => exact Or.inr fun b q h => Verdict.noConfusion h
        | TooFar => exact Or.inr fun b q h => Verdict.noConfusion h
        | Uncentered => exact Or.inr fun b q h => Verdict.noConfusion h
      by_cases hc : s.isCapturing = true
      · rcases hsplit with ⟨b, q, hv⟩ | hna
        · rw [sessionStep, detectFrameStep_capturing_accepted s i b q hr' hv hc]
          exact Or.inl ⟨rfl, rfl⟩
        · rw [sessionStep, detectFrameStep_capturing_not_accepted s i _ hr' rfl hna hc]
          exact Or.inl ⟨rfl, rfl⟩
      · have hnc : s.isCapturing = false := by
          revert hc
          cases s.isCapturing <;> simp
        rcases hsplit with ⟨b, q, hv⟩ | hna
        · rw [sessionStep, detectFrameStep_accepted s i b q hr' hv hnc]
          refine Or.inr (Or.inr ⟨hnc, ⟨i, rfl⟩, ?_, ?_⟩)
          · split <;> rfl
          · by_cases h4 : STABILITY_THRESHOLD ≤ s.stabilityCounter + 1
            · rw [if_pos h4]
              simp [h4]
            · rw [if_neg h4]
              simp [hnc, h4]
        · rw [sessionStep, detectFrameStep_not_accepted s i _ hr' rfl hna hnc]
          exact Or.inr (Or.inl ⟨rfl, hnc⟩)

theorem sessionStep_counterInv (s : ControllerState) (e : SessionEvent)
    (h : CounterInv s) : CounterInv (sessionStep s e).1 := by
  rcases sessionStep_counter_cases s e with ⟨h1, h2⟩ | ⟨h1, h2⟩ | ⟨hnc, _, h1, h2⟩
  · exact ⟨h1 ▸ h.1, fun hc => h1 ▸ h.2 (h2 ▸ hc)⟩
  · refine ⟨h1 ▸ Nat.zero_le _, fun _ => ?_⟩
    rw [h1, STABILITY_THRESHOLD]
    omega
  · have hlt : s.stabilityCounter < STABILITY_THRESHOLD := h.2 hnc
    constructor
    · rw [h1]
      omega
    · intro hcf
      rw [h1]
      by_cases h4 : STABILITY_THRESHOLD ≤ s.stabilityCounter + 1
      · exact absurd (h2.mpr h4) (by rw [hcf]; simp)
      · omega

theorem runSession_counterInv (events : List SessionEvent) :
    ∀ s, CounterInv s → CounterInv (runSession s events) := by
  induction events with
  | nil => exact fun s h => h
  | cons e rest ih =>
    intro s h
    exact ih (sessionStep s e).1 (sessionStep_counterInv s e h)

/-- Claim C10: throughout a session started from the initial state the
stability counter stays within `[0, STABILITY_THRESHOLD]`; every event
either resets it to 0, leaves it unchanged, or increments it by 1; it is
incremented only by an evaluation tick arriving while the controller is not
capturing; the tick that brings it to `STABILITY_THRESHOLD` enters the
capturing state; and while capturing the counter stays unchanged until the
reset that leaves the capturing state. -/
theorem claim10_counter_invariant :
    (∀ events, CounterInv (runSession initialState events)) ∧
    (∀ events, (runSession initialState events).stabilityCounter ≤ STABILITY_THRESHOLD) ∧
    (∀ s e, (sessionStep s e).1.stabilityCounter = 0 ∨
      (sessionStep s e).1.stabilityCounter = s.stabilityCounter ∨
      (sessionStep s e).1.stabilityCounter = s.stabilityCounter + 1) ∧
    (∀ s e, (sessionStep s e).1.stabilityCounter = s.stabilityCounter + 1 →
      s.isCapturing = false ∧ ∃ i, e = SessionEvent.frame i) ∧
    (∀ s i, CounterInv s → s.isCapturing = false →
      (sessionStep s (SessionEvent.frame i)).1.stabilityCounter = STABILITY_THRESHOLD →
      (sessionStep s (SessionEvent.frame i)).1.isCapturing = true) ∧
    (∀ s e, s.isCapturing = true →
      (sessionStep s e).1.stabilityCounter = s.stabilityCounter ∨
      ((sessionStep s e).1.stabilityCounter = 0 ∧ (sessionStep s e).1.isCapturing = false)) := by
  have hinv : ∀ events, CounterInv (runSession initialState events) := fun events =>
    runSession_counterInv events initialState ⟨by decide, fun _ => by decide⟩
  refine ⟨hinv, fun events => (hinv events).1, ?_, ?_, ?_, ?_⟩
  · intro s e
    rcases sessionStep_counter_cases s e with ⟨h1, _⟩ | ⟨h1, _⟩ | ⟨_, _, h1, _⟩
    · exact Or.inr (Or.inl h1)
    · exact Or.inl h1
    · exact Or.inr (Or.inr h1)
  · intro s e hinc
    rcases sessionStep_counter_cases s e with ⟨h1, _⟩ | ⟨h1, _⟩ | ⟨hnc, hi, h1, _⟩
    · rw [hinc] at h1
      omega
    · rw [hinc] at h1
      omega
    · exact ⟨hnc, hi⟩
  · intro s i hs hnc hreach
    rcases sessionStep_counter_cases s (SessionEvent.frame i) with ⟨h1, _⟩ | ⟨h1, _⟩ | ⟨_, _, h1, h2⟩
    · have := hs.2 hnc
      rw [hreach] at h1
      omega
    · rw [hreach] at h1
      rw [STABILITY_THRESHOLD] at h1
      omega
    · rw [hreach] at h1
      exact h2.mpr (by omega)
  · intro s e hc
    rcases sessionStep_counter_cases s e with ⟨h1, _⟩ | ⟨h1, h2⟩ | ⟨hnc, _, _, _⟩
    · exact Or.inl h1
    · exact Or.inr ⟨h1, h2⟩
    · rw [hc] at hnc
      exact Bool.noConfusion hnc

/-- Claim C10, witness: the invariant and the capture transition evaluated
on the concrete stabilization trace. -/
theorem claim10_witness :
    (CounterInv ⟨3, false, [], some (), false⟩ ∧
      (⟨3, false, [], some (), false⟩ : ControllerState).isCapturing = false ∧
      (sessionStep ⟨3, false, [], some (), false⟩
        (SessionEvent.frame acceptedInput)).1.stabilityCounter = STABILITY_THRESHOLD) ∧
    (sessionStep ⟨3, false, [], some (), false⟩
      (SessionEvent.frame acceptedInput)).1.isCapturing = true := by
  have h1 : (sessionStep ⟨3, false, [], some (), false⟩
      (SessionEvent.frame acceptedInput)).1.stabilityCounter = STABILITY_THRESHOLD := by
    show (detectFrameStep ⟨3, false, [], some (), false⟩ acceptedInput).1.stabilityCounter =
      STABILITY_THRESHOLD
    rw [demo_tick_trigger]
    rfl
  have hinv : CounterInv ⟨3, false, [], some (), false⟩ := ⟨by decide, fun _ => by decide⟩
  exact ⟨⟨hinv, rfl, h1⟩,
    claim10_counter_invariant.2.2.2.2.1 ⟨3, false, [], some (), false⟩ acceptedInput
      hinv rfl h1⟩

/-! ## Claim C8 -/

/-- Claim C8, counterexample to the claim as stated: the detection list
`[smallDetection, goodDetection]` contains a qualifying detection that is
both large enough and centred, so the claimed acceptance condition ("some
qualifying detection exists that is both large enough and centered") holds
— yet the validator rejects, because it checks only the *first* qualifying
detection. -/
theorem claim8_counterexample :
    (goodDetection ∈ [smallDetection, goodDetection] ∧
      goodDetection.cls ∈ TARGET_CLASSES ∧
      goodDetection.score > DETECTION_CONFIDENCE_THRESHOLD ∧
      stIsLargeEnough goodDetection.bbox 100 100 = true ∧
      stIsCentered goodDetection.bbox 100 100 = true) ∧
    (validateImage [smallDetection, goodDetection] 100 100).valid = false ∧
    (validateImage [smallDetection, goodDetection] 100 100).message = uploadTooFarMessage := by
  have hfind : findValidPredictionUpload [smallDetection, goodDetection] =
      some smallDetection := by
    rw [findValidPredictionUpload, List.find?_cons_of_pos]
    rw [qualifies]
    norm_num [smallDetection, TARGET_CLASSES, DETECTION_CONFIDENCE_THRESHOLD]
  have hL : stIsLargeEnough smallDetection.bbox 100 100 = false := by
    rw [stIsLargeEnough]
    norm_num [smallDetection, FRAME_AREA_THRESHOLD]
  refine ⟨⟨by simp, ?_, ?_, ?_, ?_⟩, ?_, ?_⟩
  · rw [goodDetection, TARGET_CLASSES]
    simp
  · rw [goodDetection, DETECTION_CONFIDENCE_THRESHOLD]
    norm_num
  · rw [stIsLargeEnough]
    norm_num [goodDetection, FRAME_AREA_THRESHOLD]
  · rw [stIsCentered]
    norm_num [goodDetection, CENTER_THRESHOLD]
  · simp only [validateImage, hfind, hL]
    rfl
  · simp only [validateImage, hfind, hL]
    rfl

/-- Claim C8 (amended): the static validator is a pure function of the
single detector call's result and the image dimensions; it rejects with a
null bbox exactly when no qualifying detection exists, and otherwise
reports on the *first* qualifying detection: acceptance iff that detection
is both large enough and centred, rejection with the size reason when it is
too small (checked first), and with the centering reason when large enough
but off-centre.  No sharpness is computed anywhere in the definition. -/
theorem claim8_static_validator (preds : List Detection) (w h : ℚ) :
    (findValidPredictionUpload preds = none →
      validateImage preds w h = ⟨false, noDetectionMessage, none⟩) ∧
    ((validateImage preds w h).bbox = none → findValidPredictionUpload preds = none) ∧
    (∀ p, findValidPredictionUpload preds = some p →
      (validateImage preds w h).bbox = some p.bbox ∧
      ((validateImage preds w h).valid = true ↔
        stIsLargeEnough p.bbox w h = true ∧ stIsCentered p.bbox w h = true) ∧
      (stIsLargeEnough p.bbox w h = false →
        (validateImage preds w h).message = uploadTooFarMessage) ∧
      (stIsLargeEnough p.bbox w h = true → stIsCentered p.bbox w h = false →
        (validateImage preds w h).message = uploadUncenteredMessage) ∧
      (stIsLargeEnough p.bbox w h = true → stIsCentered p.bbox w h = true →
        validateImage preds w h = ⟨true, uploadValidMessage, some p.bbox⟩)) := by
  refine ⟨?_, ?_, ?_⟩
  · intro hnone
    simp only [validateImage, hnone]
  · intro hbbox
    rcases hf : findValidPredictionUpload preds with _ | p
    · rfl
    · simp only [validateImage, hf] at hbbox
      split_ifs at hbbox
  · intro p hf
    by_cases hL : stIsLargeEnough p.bbox w h = true
    · by_cases hC : stIsCentered p.bbox w h = true
      · have hval : validateImage preds w h = ⟨true, uploadValidMessage, some p.bbox⟩ := by
          simp only [validateImage, hf, hL, hC]
          rfl
        rw [hval]
        refine ⟨rfl, by simp [hL, hC], ?_, ?_, fun _ _ => rfl⟩
        · intro habs
          rw [habs] at hL
          exact Bool.noConfusion hL
        · intro _ habs
          rw [habs] at hC
          exact Bool.noConfusion hC
      · have hC' : stIsCentered p.bbox w h = false := by
          revert hC
          cases stIsCentered p.bbox w h <;> simp
        have hval : validateImage preds w h = ⟨false, uploadUncenteredMessage, some p.bbox⟩ := by
          simp only [validateImage, hf, hL, hC']
          rfl
        rw [hval]
        refine ⟨rfl, by simp [hC'], ?_, fun _ _ => rfl, ?_⟩
        · intro habs
          rw [habs] at hL
          exact Bool.noConfusion hL
        · intro _ habs
          rw [hC'] at habs
          exact Bool.noConfusion habs
    · have hL' : stIsLargeEnough p.bbox w h = false := by
        revert hL
        cases stIsLargeEnough p.bbox w h <;> simp
      have hval : validateImage preds w h = ⟨false, uploadTooFarMessage, some p.bbox⟩ := by
        simp only [validateImage, hf, hL']
        rfl
      rw [hval]
      refine ⟨rfl, by simp [hL'], fun _ => rfl, ?_, ?_⟩
      · intro habs
        rw [hL'] at habs
        exact Bool.noConfusion habs
      · intro habs
        rw [hL'] at habs
        exact Bool.noConfusion habs

/-- Claim C8, witness: the amended characterization applied to the
singleton list holding a large, centred, qualifying detection. -/
theorem claim8_witness :
    findValidPredictionUpload [goodDetection] = some goodDetection ∧
    validateImage [goodDetection] 100 100 = ⟨true, uploadValidMessage, some goodDetection.bbox⟩ := by
  have hfind : findValidPredictionUpload [goodDetection] = some goodDetection := by
    rw [findValidPredictionUpload, List.find?_cons_of_pos]
    rw [qualifies]
    norm_num [goodDetection, TARGET_CLASSES, DETECTION_CONFIDENCE_THRESHOLD]
  have hL : stIsLargeEnough goodDetection.bbox 100 100 = true := by
    rw [stIsLargeEnough]
    norm_num [goodDetection, FRAME_AREA_THRESHOLD]
  have hC : stIsCentered goodDetection.bbox 100 100 = true := by
    rw [stIsCentered]
    norm_num [goodDetection, CENTER_THRESHOLD]
  exact ⟨hfind,
    ((claim8_static_validator [goodDetection] 100 100).2.2 goodDetection hfind).2.2.2.2 hL hC⟩

/-! ## Claim C9 -/

/-- Claim C9: the downstream processing step succeeds — producing an
`AnalysisResult` holding the three payloads — exactly when the OCR call and
both fraud-analysis calls succeed; when any non-empty subset of the three
fails, it fails with the individual failure reasons joined by `"; "`, in
the fixed order OCR, fraud-front, fraud-back. -/
theorem claim9_processing_aggregation {α : Type} :
    (∀ (o : Except String α) f1 f2,
      (∃ r, processResults o f1 f2 = .ok r) ↔
        (∃ a, o = .ok a) ∧ (∃ v, f1 = .ok v) ∧ (∃ v, f2 = .ok v)) ∧
    (∀ (a : α) (f1 f2 : FraudResult),
      processResults (.ok a) (.ok f1) (.ok f2) = .ok ⟨some a, some f1, some f2⟩) ∧
    (∀ (e : String) (f1 f2 : FraudResult),
      processResults (α := α) (.error e) (.ok f1) (.ok f2) = .error e) ∧
    (∀ (a : α) (e : String) (f2 : FraudResult),
      processResults (.ok a) (.error e) (.ok f2) = .error e) ∧
    (∀ (a : α) (f1 : FraudResult) (e : String),
      processResults (.ok a) (.ok f1) (.error e) = .error e) ∧
    (∀ (e1 e2 : String) (f2 : FraudResult),
      processResults (α := α) (.error e1) (.error e2) (.ok f2) = .error (e1 ++ "; " ++ e2)) ∧
    (∀ (e1 : String) (f1 : FraudResult) (e3 : String),
      processResults (α := α) (.error e1) (.ok f1) (.error e3) = .error (e1 ++ "; " ++ e3)) ∧
    (∀ (a : α) (e2 e3 : String),
      processResults (.ok a) (.error e2) (.error e3) = .error (e2 ++ "; " ++ e3)) ∧
    (∀ (e1 e2 e3 : String),
      processResults (α := α) (.error e1) (.error e2) (.error e3) =
        .error (e1 ++ "; " ++ e2 ++ "; " ++ e3)) := by
  refine ⟨?_, fun a f1 f2 => rfl, fun e f1 f2 => rfl, fun a e f2 => rfl, fun a f1 e => rfl,
    ?_, ?_, ?_, ?_⟩
  · intro o f1 f2
    rcases o with e | a <;> rcases f1 with e1 | v1 <;> rcases f2 with e2 | v2 <;>
      simp [processResults, settledValue]
  · intro e1 e2 f2
    show Except.error (String.intercalate ("; ") [e1, e2]) = _
    simp [String.intercalate, String.intercalate.go, String.append_assoc]
  · intro e1 f1 e3
    show Except.error (String.intercalate ("; ") [e1, e3]) = _
    simp [String.intercalate, String.intercalate.go, String.append_assoc]
  · intro a e2 e3
    show Except.error (String.intercalate ("; ") [e2, e3]) = _
    simp [String.intercalate, String.intercalate.go, String.append_assoc]
  · intro e1 e2 e3
    show Except.error (String.intercalate ("; ") [e1, e2, e3]) = _
    simp [String.intercalate, String.intercalate.go, String.append_assoc]
